import Mathlib

/-!
# Verification of the nsight profiler runtime-env plugin

Shallow embedding of `python/ray/_private/runtime_env/nsight.py`:
the configuration translator (`parse_nsight_config`), the validation step
(`check_nsight_script`), and the `NsightPlugin` lifecycle operations
(`create`, `modify_context`, `delete_uri`).

Python dictionaries are modelled as insertion-ordered association lists,
Python exceptions as an explicit error value carrying the exception class
name and message, and the external profiler subprocess as an oracle from
the invoked command line to an outcome.  Logging calls are not modelled
except for the `delete_uri` warning, which is returned explicitly.
-/

namespace Nsight

/-- Python string slicing `s[:n]`. -/
def strTake (s : String) (n : Nat) : String := String.mk (s.data.take n)

/-- Drop leading whitespace characters. -/
def dropWhitespaceLeft : List Char → List Char
  | [] => []
  | c :: cs => if c.isWhitespace then dropWhitespaceLeft cs else c :: cs

/-- Python `s.strip()`: remove leading and trailing whitespace.  (Python
also strips a few rarer control and Unicode space characters; the claims
below only exercise ASCII spaces, tabs and newlines, on which the two
agree.) -/
def pyStrip (s : String) : String :=
  String.mk (dropWhitespaceLeft (dropWhitespaceLeft s.data.reverse).reverse)

/-- A Python `Dict[str, str]`: insertion-ordered association list.
Python dict keys are unique; none of the embedded operations depend on
uniqueness, so it is not imposed as an invariant here. -/
abbrev Dict := List (String × String)

/-- Association-list lookup (Python `d[k]` / `d.get(k)`). -/
def lookupKey {β : Type} (k : String) : List (String × β) → Option β
  | [] => none
  | p :: rest => if p.1 = k then some p.2 else lookupKey k rest

/-- Remove every entry with the given key. -/
def removeKey {β : Type} (k : String) : List (String × β) → List (String × β)
  | [] => []
  | p :: rest => if p.1 = k then removeKey k rest else p :: removeKey k rest

/-- Python `d.get(k, dflt)`. -/
def dictGetD (d : Dict) (k : String) (dflt : String) : String :=
  (lookupKey k d).getD dflt

/-- Python `d[k] = v`: overwrite in place if the key is present (keeping its
position in the insertion order), otherwise append at the end. -/
def dictSet (d : Dict) (k v : String) : Dict :=
  match d with
  | [] => [(k, v)]
  | p :: rest => if p.1 = k then (k, v) :: rest else p :: dictSet rest k v

/-- `NSIGHT_DEFEAULT_CONFIG` (sic) from the source. -/
def NSIGHT_DEFEAULT_CONFIG : Dict :=
  [("-t", "cuda,cudnn,cublas,nvtx"),
   ("-o", "\x27worker_process_%p\x27"),
   ("--cudabacktrace", "all"),
   ("--stop-on-exit", "true")]

/-- Rendering of one `(option, option_val)` entry by the loop body of
`parse_nsight_config`: `option[:2] == "--"` yields the joined token,
`option[0] == "-"` yields two tokens, anything else yields nothing.
(For an empty key Python's `option[0]` would raise `IndexError`; every
claim below quantifies over non-empty keys only.) -/
def renderOption (p : String × String) : List String :=
  if strTake p.1 2 = "--" then [p.1 ++ "=" ++ p.2]
  else if strTake p.1 1 = "-" then [p.1, p.2]
  else []

/-- `parse_nsight_config`: convert a dictionary of nsight options into the
`nsys profile` command line, iterating in insertion order. -/
def parse_nsight_config (nsight_config : Dict) : List String :=
  nsight_config.foldl
    (fun nsight_cmd p =>
      if strTake p.1 2 = "--" then nsight_cmd ++ [p.1 ++ "=" ++ p.2]
      else if strTake p.1 1 = "-" then nsight_cmd ++ [p.1, p.2]
      else nsight_cmd)
    ["nsys", "profile"]

/-- Outcome of invoking the external tool via `subprocess.run`:
either the executable is missing (`FileNotFoundError`) or it ran and
produced a return code with captured stdout and stderr. -/
inductive ToolOutcome where
  | notFound
  | ran (returncode : Int) (stdout : String) (stderr : String)
deriving DecidableEq, Repr

/-- The external-process boundary: what `subprocess.run` does on a given
command line. -/
abbrev Tool := List String → ToolOutcome

/-- `check_nsight_script`: deep-copy the config, override `-o` with the
throwaway value `"empty"`, render, append the no-op target
`python -c '""'`, and run the tool.  Returns `(true, none)` on exit
code 0; on a non-zero exit code returns stripped stderr if non-blank,
else stripped stdout; on `FileNotFoundError` reports that nsight is not
installed.  (The `rm -f empty.nsight-rep` cleanup on success has no
observable effect in this model.) -/
def check_nsight_script (tool : Tool) (nsight_config : Dict) :
    Bool × Option String :=
  let nsight_config_copy := dictSet nsight_config "-o" "empty"
  let nsight_cmd := parse_nsight_config nsight_config_copy
  match tool (nsight_cmd ++ ["python", "-c", "\"\""]) with
  | ToolOutcome.notFound => (false, some "nsight is not installed")
  | ToolOutcome.ran returncode stdout stderr =>
      if returncode = 0 then (true, none)
      else
        (false, some (if pyStrip stderr ≠ "" then pyStrip stderr else pyStrip stdout))

/-- A raised Python exception: class name and message.  Every raise in
this file's source is `raise RuntimeError(...)`. -/
structure PyExc where
  cls : String
  msg : String
deriving DecidableEq, Repr

/-- The value of `runtime_env.get("nsight")`: absent (`None`), a string,
or a dictionary of options. -/
inductive NsightField where
  | absent
  | str (s : String)
  | dict (d : Dict)
deriving DecidableEq, Repr

/-- Python falsiness of the nsight field (`if not nsight_config`):
`None`, the empty string and the empty dict are falsy. -/
def isFalsy : NsightField → Bool
  | NsightField.absent => true
  | NsightField.str s => s = ""
  | NsightField.dict d => d.isEmpty

/-- The mutable plugin state: the stored rendered command (starts empty)
and the two directories computed in `__init__`.  The directory-creation
side effects of `__init__` are not modelled. -/
structure NsightPlugin where
  nsight_cmd : List String
  resources_dir : String
  logs_dir : String
deriving DecidableEq, Repr

/-- The execution context: its interpreter-launch prefix field
`py_executable`. -/
structure RuntimeEnvContext where
  py_executable : String
deriving DecidableEq, Repr

/-- `NsightPlugin.create`: read the nsight field; falsy means no-op
(return 0, command left as is).  A string other than `"default"` raises;
`"default"` expands to the built-in config.  Then validate via
`check_nsight_script`, raising on failure.  On success, re-store the
`-o` value read from the config (defaulting to the built-in `-o`) and
store the rendered command.  Returns the updated plugin state and the
integer result. -/
def create (tool : Tool) (plugin : NsightPlugin) (nf : NsightField) :
    Except PyExc (NsightPlugin × Int) :=
  if isFalsy nf then Except.ok (plugin, 0)
  else
    let resolved : Except PyExc Dict :=
      match nf with
      | NsightField.absent => Except.ok []
      | NsightField.str s =>
          if s = "default" then Except.ok NSIGHT_DEFEAULT_CONFIG
          else Except.error (PyExc.mk "RuntimeError"
            ("Unsupported nsight config: " ++ s ++
             ". The supported config is \x27default\x27 or Dictionary of nsight options"))
      | NsightField.dict d => Except.ok d
    match resolved with
    | Except.error e => Except.error e
    | Except.ok nsight_config =>
        match check_nsight_script tool nsight_config with
        | (false, error_msg) =>
            Except.error (PyExc.mk "RuntimeError"
              ("nsight profile failed to run with the following error message:\n "
                ++ error_msg.getD ""))
        | (true, _) =>
            let output := dictGetD nsight_config "-o"
              (dictGetD NSIGHT_DEFEAULT_CONFIG "-o" "")
            let nsight_config := dictSet nsight_config "-o" output
            Except.ok
              ({ plugin with nsight_cmd := parse_nsight_config nsight_config }, 0)

/-- `NsightPlugin.modify_context`: sets
`context.py_executable = " ".join(self.nsight_cmd) + " python"`. -/
def modify_context (plugin : NsightPlugin) (_context : RuntimeEnvContext) :
    RuntimeEnvContext :=
  RuntimeEnvContext.mk (String.intercalate " " plugin.nsight_cmd ++ " python")

/-- On-disk state visible to `delete_uri`: a map from local directory
path to its size in bytes. -/
abbrev FileSystem := List (String × Nat)

/-- Modelled from the spec: `get_local_dir_from_uri(uri, root) -> path`
belongs to the external packaging collaborator, whose code is not under
`src/`; per the interface boundary each URI is addressed to a directory
under the root, disjoint per URI. -/
def get_local_dir_from_uri (uri root : String) : String :=
  root ++ "/" ++ uri

/-- Modelled from the spec: `get_directory_size_bytes(path) -> int` is a
filesystem-utility collaborator not under `src/`; a directory that does
not exist has size 0. -/
def get_directory_size_bytes (fs : FileSystem) (path : String) : Nat :=
  (lookupKey path fs).getD 0

/-- Modelled from the spec: `delete_package(uri, root) -> bool` is the
packaging collaborator not under `src/`; it returns true iff something
was deleted, removing the URI's local directory. -/
def delete_package (fs : FileSystem) (uri root : String) : Bool × FileSystem :=
  let local_dir := get_local_dir_from_uri uri root
  match lookupKey local_dir fs with
  | some _ => (true, removeKey local_dir fs)
  | none => (false, fs)

/-- `NsightPlugin.delete_uri`: measure the directory size first, then
delegate to `delete_package`; if nothing was deleted, emit the warning
and return 0, else return the pre-deletion size.  Result:
`(bytes returned, warnings logged, filesystem after)`. -/
def delete_uri (plugin : NsightPlugin) (fs : FileSystem) (uri : String) :
    Nat × List String × FileSystem :=
  let local_dir := get_local_dir_from_uri uri plugin.resources_dir
  let local_dir_size := get_directory_size_bytes fs local_dir
  let deleted := delete_package fs uri plugin.resources_dir
  if deleted.1 = false then
    (0, ["Tried to delete nonexistent URI: " ++ uri ++ "."], deleted.2)
  else
    (local_dir_size, [], deleted.2)

/-- Split a character sequence at the first `'='`: the part before it
and the part after it (the whole sequence and `[]` when no `'='`
occurs). -/
def splitCharsAtFirstEq : List Char → List Char × List Char
  | [] => ([], [])
  | c :: cs =>
    if c = '=' then ([], cs)
    else
      let r := splitCharsAtFirstEq cs
      (c :: r.1, r.2)

/-- Split a rendered long-option token at its first `"="` into the
`(option, value)` pair, as the round-trip claim prescribes. -/
def splitAtFirstEq (s : String) : String × String :=
  let r := splitCharsAtFirstEq s.data
  (String.mk r.1, String.mk r.2)

/-- The re-parser described by the round-trip claim: a token starting
with `"--"` is split at its first `"="`; any other token is paired with
the following token. -/
def reparse : List String → Dict
  | [] => []
  | tok :: rest =>
    if strTake tok 2 = "--" then splitAtFirstEq tok :: reparse rest
    else
      match rest with
      | [] => []
      | v :: rest2 => (tok, v) :: reparse rest2

/-- `isPrefixOfCL pat s`: is `pat` a prefix of `s`? -/
def isPrefixOfCL : List Char → List Char → Bool
  | [], _ => true
  | _ :: _, [] => false
  | a :: as, b :: bs => a = b && isPrefixOfCL as bs

/-- `containsCL s pat`: does `pat` occur as a contiguous run in `s`? -/
def containsCL : List Char → List Char → Bool
  | [], pat => isPrefixOfCL pat []
  | c :: rest, pat => isPrefixOfCL pat (c :: rest) || containsCL rest pat

/-- Substring containment, Python's `pat in s`. -/
def strContains (s pat : String) : Bool := containsCL s.data pat.data

/-- The tokens contributed by a configuration, without the leading
`["nsys", "profile"]`; `parse_nsight_config` is proved equal to this
below. -/
def renderOptions : Dict → List String
  | [] => []
  | p :: rest => renderOption p ++ renderOptions rest

/-- A key as the round-trip claim (as amended) requires it: non-empty,
prefixed with `"-"`, and containing no `'='` when it is a long option. -/
def GoodKey (k : String) : Prop :=
  k ≠ "" ∧ strTake k 1 = "-" ∧ (strTake k 2 = "--" → '=' ∉ k.data)

instance : DecidablePred GoodKey := fun k => by
  unfold GoodKey
  infer_instance

/-! ## Helper lemmas -/

/-- A character list whose first two characters are `"--"` is of the form
`'-' :: '-' :: t`. -/
theorem take_two_dashdash {l : List Char} (h : l.take 2 = ['-', '-']) :
    ∃ t, l = '-' :: '-' :: t := by
  match l with
  | [] => simp [List.take] at h
  | [a] => simp [List.take] at h
  | a :: b :: t =>
    simp [List.take] at h
    exact ⟨t, by simp [h.1, h.2]⟩

/-- `s[:2] == "--"` in terms of the character list. -/
theorem strTake_two_iff {k : String} :
    strTake k 2 = "--" ↔ k.data.take 2 = ['-', '-'] := by
  rw [strTake, String.ext_iff]

/-- `s[:1] == "-"` in terms of the character list. -/
theorem strTake_one_iff {k : String} :
    strTake k 1 = "-" ↔ k.data.take 1 = ['-'] := by
  rw [strTake, String.ext_iff]

/-- Splitting `kl ++ '=' :: vl` at the first `'='` recovers `kl` and `vl`
when `kl` itself contains no `'='`. -/
theorem splitCharsAtFirstEq_append {kl vl : List Char} (h : '=' ∉ kl) :
    splitCharsAtFirstEq (kl ++ '=' :: vl) = (kl, vl) := by
  induction kl with
  | nil => simp [splitCharsAtFirstEq]
  | cons c cs ih =>
    simp only [List.mem_cons, not_or] at h
    simp [splitCharsAtFirstEq, Ne.symm h.1, ih h.2]

/-- The render loop of `parse_nsight_config`, run from any accumulator,
appends exactly the tokens of `renderOptions`. -/
theorem parse_foldl_eq (d : Dict) : ∀ acc : List String,
    d.foldl
      (fun nsight_cmd p =>
        if strTake p.1 2 = "--" then nsight_cmd ++ [p.1 ++ "=" ++ p.2]
        else if strTake p.1 1 = "-" then nsight_cmd ++ [p.1, p.2]
        else nsight_cmd)
      acc
    = acc ++ renderOptions d := by
  induction d with
  | nil => intro acc; simp [renderOptions]
  | cons p rest ih =>
    intro acc
    simp only [List.foldl_cons, renderOptions]
    rw [ih]
    by_cases h2 : strTake p.1 2 = "--"
    · simp [renderOption, h2]
    · by_cases h1 : strTake p.1 1 = "-" <;> simp [renderOption, h2, h1]

/-- `parse_nsight_config` is `["nsys", "profile"]` followed by the
per-option token runs. -/
theorem parse_nsight_config_eq (d : Dict) :
    parse_nsight_config d = ["nsys", "profile"] ++ renderOptions d :=
  parse_foldl_eq d _

/-- Unfolding `reparse` at a long-option token. -/
theorem reparse_long {tok : String} (ts : List String) (h : strTake tok 2 = "--") :
    reparse (tok :: ts) = splitAtFirstEq tok :: reparse ts := by
  rw [reparse.eq_def]
  simp [h]

/-- Unfolding `reparse` at a short-option token and its value. -/
theorem reparse_short {tok v : String} (ts : List String) (h : ¬ strTake tok 2 = "--") :
    reparse (tok :: v :: ts) = (tok, v) :: reparse ts := by
  rw [reparse.eq_def]
  simp [h]

/-- Re-parsing the option tokens of a configuration with good keys
recovers the configuration, entry by entry and in order. -/
theorem reparse_renderOptions {d : Dict} (h : ∀ p ∈ d, GoodKey p.1) :
    reparse (renderOptions d) = d := by
  induction d with
  | nil => simp [renderOptions, reparse]
  | cons p rest ih =>
    obtain ⟨hne, h1, h2⟩ := h p (by simp)
    have hrest := ih (fun q hq => h q (by simp [hq]))
    by_cases hl : strTake p.1 2 = "--"
    · obtain ⟨t, ht⟩ := take_two_dashdash (strTake_two_iff.1 hl)
      have hdata : (p.1 ++ "=" ++ p.2).data = p.1.data ++ '=' :: p.2.data := by
        simp [String.data_append]
      have htok : strTake (p.1 ++ "=" ++ p.2) 2 = "--" := by
        rw [strTake_two_iff, hdata, ht]
        simp
      have hsplit : splitAtFirstEq (p.1 ++ "=" ++ p.2) = (p.1, p.2) := by
        rw [splitAtFirstEq, hdata, splitCharsAtFirstEq_append (h2 hl)]
      simp only [renderOptions, renderOption, hl, if_pos, List.singleton_append]
      rw [reparse_long _ htok, hsplit, hrest]
    · simp only [renderOptions, renderOption, hl, if_neg, h1, if_pos, ite_false, ite_true,
        List.cons_append, List.nil_append]
      rw [reparse_short _ hl, hrest]

/-- `renderOptions` distributes over concatenation of configurations. -/
theorem renderOptions_append (d₁ d₂ : Dict) :
    renderOptions (d₁ ++ d₂) = renderOptions d₁ ++ renderOptions d₂ := by
  induction d₁ with
  | nil => simp [renderOptions]
  | cons p rest ih => simp [renderOptions, ih]

/-- A list starting with `"--"` also starts with `"-"`. -/
theorem take_one_of_take_two {l : List Char} (h : l.take 2 = ['-', '-']) :
    l.take 1 = ['-'] := by
  obtain ⟨t, ht⟩ := take_two_dashdash h
  simp [ht]

/-- A key removed by `removeKey` is no longer found by `lookupKey`. -/
theorem lookupKey_removeKey {β : Type} (k : String) (l : List (String × β)) :
    lookupKey k (removeKey k l) = none := by
  induction l with
  | nil => rfl
  | cons p rest ih =>
    by_cases h : p.1 = k
    · simp [removeKey, h, ih]
    · simp [removeKey, lookupKey, h, ih]

/-! ## Claim theorems -/

/-- Claim C1 (code bug): evaluating `create` at the claim's own input
(configuration `--cuda-stats=on, -o run1`, logs directory
`/sess/logs/profiler`, validation succeeding) shows the stored rendered
command keeps the final `-o` value `run1`: the code re-stores the value
it read instead of anchoring it under the logs directory, although the
comment and log lines at the rewrite site say that is what it is for. -/
theorem create_stores_unanchored_output_path :
    create (fun _ => ToolOutcome.ran 0 "" "")
        (NsightPlugin.mk [] "/sess/runtime_resources/nsight" "/sess/logs/profiler")
        (NsightField.dict [("--cuda-stats", "on"), ("-o", "run1")])
      = Except.ok
          (NsightPlugin.mk ["nsys", "profile", "--cuda-stats=on", "-o", "run1"]
            "/sess/runtime_resources/nsight" "/sess/logs/profiler", 0)
    ∧ ("run1" : String) ≠ "/sess/logs/profiler/run1" := ⟨rfl, by decide⟩

/-- Claim C2 (as amended): `modify_context` sets the executable-prefix
field to the stored rendered command joined by spaces followed by a
space and the interpreter token, independently of the field's prior
content (which is discarded, not preserved). -/
theorem modify_context_overwrites_py_executable (plugin : NsightPlugin)
    (c c' : RuntimeEnvContext) :
    (modify_context plugin c).py_executable
      = String.intercalate " " plugin.nsight_cmd ++ " python"
    ∧ modify_context plugin c = modify_context plugin c' := ⟨rfl, rfl⟩

/-- Claim C2 (counterexample): with stored command `nsys profile` and
prior prefix `OLDPREFIX`, the resulting prefix is `nsys profile python`,
in which the prior content does not occur at all — so it is not
preserved after the prepended prefix. -/
theorem modify_context_drops_prior_py_executable_cex :
    (modify_context (NsightPlugin.mk ["nsys", "profile"] "/r" "/l")
        (RuntimeEnvContext.mk "OLDPREFIX")).py_executable = "nsys profile python"
    ∧ strContains "nsys profile python" "OLDPREFIX" = false := ⟨rfl, by decide⟩

/-- Claim C3 (as amended): when the external tool cannot be located
(`FileNotFoundError` from every invocation), `create` fails with the
same exception kind as a tool rejection — a `RuntimeError` — whose
message says nsight is not installed; the missing-tool case is
distinguished from a rejected configuration only by message text, not
by a distinct exception kind. -/
theorem tool_not_found_raises_runtime_error (tool : Tool) (plugin : NsightPlugin)
    (d : Dict) (hne : d ≠ []) (htool : ∀ cmd, tool cmd = ToolOutcome.notFound) :
    create tool plugin (NsightField.dict d)
      = Except.error (PyExc.mk "RuntimeError"
          "nsight profile failed to run with the following error message:\n nsight is not installed") := by
  simp [create, isFalsy, hne, check_nsight_script, htool]

/-- Concrete instance of `tool_not_found_raises_runtime_error`. -/
theorem tool_not_found_raises_runtime_error_witness :
    ([("-x", "1")] : Dict) ≠ []
    ∧ create (fun _ => ToolOutcome.notFound) (NsightPlugin.mk [] "/r" "/l")
        (NsightField.dict [("-x", "1")])
      = Except.error (PyExc.mk "RuntimeError"
          "nsight profile failed to run with the following error message:\n nsight is not installed") :=
  ⟨by decide,
   tool_not_found_raises_runtime_error (fun _ => ToolOutcome.notFound)
     (NsightPlugin.mk [] "/r" "/l") [("-x", "1")] (by decide) (fun _ => rfl)⟩

/-- Claim C3 (counterexample): on the same configuration, a missing tool
and a tool that rejects the flags both make `create` fail with an
exception of class `RuntimeError` — the error kinds are not distinct,
only the messages differ. -/
theorem tool_missing_error_same_kind_cex :
    create (fun _ => ToolOutcome.notFound) (NsightPlugin.mk [] "/r" "/l")
        (NsightField.dict [("-x", "1")])
      = Except.error (PyExc.mk "RuntimeError"
          "nsight profile failed to run with the following error message:\n nsight is not installed")
    ∧ create (fun _ => ToolOutcome.ran 1 "" "bad flag") (NsightPlugin.mk [] "/r" "/l")
        (NsightField.dict [("-x", "1")])
      = Except.error (PyExc.mk "RuntimeError"
          "nsight profile failed to run with the following error message:\n bad flag") :=
  ⟨rfl, rfl⟩

/-- Claim C4 (as amended): for every configuration whose keys are
non-empty, prefixed with a dash, and — when long options — free of the
character `=`, re-parsing the rendered option tokens (splitting a
long-option token at its first `=`, pairing a short-option token with
the following token) recovers exactly the input pairs in insertion
order. -/
theorem render_reparse_roundtrip (d : Dict) (h : ∀ p ∈ d, GoodKey p.1) :
    reparse ((parse_nsight_config d).drop 2) = d := by
  rw [parse_nsight_config_eq]
  simpa using reparse_renderOptions h

/-- Concrete instance of `render_reparse_roundtrip`. -/
theorem render_reparse_roundtrip_witness :
    (∀ p ∈ ([("--cuda-stats", "on"), ("-o", "run1")] : Dict), GoodKey p.1)
    ∧ reparse ((parse_nsight_config [("--cuda-stats", "on"), ("-o", "run1")]).drop 2)
        = [("--cuda-stats", "on"), ("-o", "run1")] :=
  ⟨by decide, render_reparse_roundtrip _ (by decide)⟩

/-- Claim C4 (counterexample): the key `--a=b` is non-empty and prefixed
with `--`, yet its rendered token `--a=b=c` re-parses at the first `=`
to the pair `(--a, b=c)`, not the input pair `(--a=b, c)`: the
round-trip fails for long keys containing `=`. -/
theorem render_roundtrip_fails_on_eq_in_key_cex :
    reparse ((parse_nsight_config [("--a=b", "c")]).drop 2) = [("--a", "b=c")]
    ∧ ([("--a", "b=c")] : Dict) ≠ [("--a=b", "c")]
    ∧ ("--a=b" : String) ≠ "" ∧ strTake "--a=b" 2 = "--" := ⟨rfl, by decide, by decide, rfl⟩

/-- Claim C5: rendering `--cuda-stats: on, -o: run1` yields exactly
`nsys profile --cuda-stats=on -o run1` as a token list — tool name and
subcommand first, the long option joined with `=`, the short option as
two tokens. -/
theorem parse_nsight_config_example :
    parse_nsight_config [("--cuda-stats", "on"), ("-o", "run1")]
      = ["nsys", "profile", "--cuda-stats=on", "-o", "run1"] := rfl

/-- Claim C6 (as amended): for every non-empty string configuration
value other than `default`, `create` fails with a `RuntimeError` whose
message names the unsupported configuration value; the empty string is
instead treated as a falsy (absent) configuration and silently
no-ops. -/
theorem nondefault_string_config_raises (tool : Tool) (plugin : NsightPlugin)
    (s : String) (hne : s ≠ "") (hnd : s ≠ "default") :
    create tool plugin (NsightField.str s)
      = Except.error (PyExc.mk "RuntimeError"
          ("Unsupported nsight config: " ++ s ++
           ". The supported config is \x27default\x27 or Dictionary of nsight options")) := by
  simp [create, isFalsy, hne, hnd]

/-- Concrete instance of `nondefault_string_config_raises`. -/
theorem nondefault_string_config_raises_witness :
    ("garbage" : String) ≠ "" ∧ ("garbage" : String) ≠ "default"
    ∧ create (fun _ => ToolOutcome.ran 0 "" "") (NsightPlugin.mk [] "/r" "/l")
        (NsightField.str "garbage")
      = Except.error (PyExc.mk "RuntimeError"
          "Unsupported nsight config: garbage. The supported config is \x27default\x27 or Dictionary of nsight options") := by
  refine ⟨by decide, by decide, ?_⟩
  have := nondefault_string_config_raises (fun _ => ToolOutcome.ran 0 "" "")
    (NsightPlugin.mk [] "/r" "/l") "garbage" (by decide) (by decide)
  simpa using this

/-- Claim C6 (counterexample): the empty string is a string other than
`default`, yet `create` does not fail on it — the falsiness check fires
first and `create` silently degrades to a no-op activation returning
0. -/
theorem empty_string_config_noop_cex :
    create (fun _ => ToolOutcome.notFound) (NsightPlugin.mk [] "/r" "/l")
        (NsightField.str "")
      = Except.ok (NsightPlugin.mk [] "/r" "/l", 0)
    ∧ ("" : String) ≠ "default" := ⟨rfl, by decide⟩

/-- Claim C7 (as amended): when the validation subprocess exits
non-zero, `create` raises a `RuntimeError` whose message contains the
whitespace-stripped error stream if that is non-blank, else the
whitespace-stripped standard output; in particular stderr
`unknown option` makes the message contain `unknown option`. -/
theorem validation_failure_message (tool : Tool) (plugin : NsightPlugin) (d : Dict)
    (rc : Int) (out err : String) (hne : d ≠ [])
    (htool : tool (parse_nsight_config (dictSet d "-o" "empty") ++ ["python", "-c", "\"\""])
        = ToolOutcome.ran rc out err)
    (hrc : rc ≠ 0) :
    create tool plugin (NsightField.dict d)
      = Except.error (PyExc.mk "RuntimeError"
          ("nsight profile failed to run with the following error message:\n "
            ++ (if pyStrip err ≠ "" then pyStrip err else pyStrip out))) := by
  simp [create, isFalsy, hne, check_nsight_script, htool, hrc]

/-- Concrete instance of `validation_failure_message`: a subprocess
failing with stderr `unknown option` makes `create` raise with a
message containing `unknown option`. -/
theorem validation_failure_message_witness :
    (1 : Int) ≠ 0
    ∧ create (fun _ => ToolOutcome.ran 1 "" "unknown option")
        (NsightPlugin.mk [] "/r" "/l") (NsightField.dict [("-x", "1")])
      = Except.error (PyExc.mk "RuntimeError"
          "nsight profile failed to run with the following error message:\n unknown option")
    ∧ strContains
        "nsight profile failed to run with the following error message:\n unknown option"
        "unknown option" = true := by
  refine ⟨by decide, ?_, by decide⟩
  have := validation_failure_message (fun _ => ToolOutcome.ran 1 "" "unknown option")
    (NsightPlugin.mk [] "/r" "/l") [("-x", "1")] 1 "" "unknown option"
    (by decide) rfl (by decide)
  simpa using this

/-- Claim C7 (counterexample): with a non-empty stderr that ends in a
newline, the raised message carries only the stripped text, so it does
not contain the captured error stream verbatim — the claim's
"message contains the error stream" fails as stated. -/
theorem stderr_not_verbatim_in_message_cex :
    create (fun _ => ToolOutcome.ran 1 "" "err\n") (NsightPlugin.mk [] "/r" "/l")
        (NsightField.dict [("-x", "1")])
      = Except.error (PyExc.mk "RuntimeError"
          "nsight profile failed to run with the following error message:\n err")
    ∧ ("err\n" : String) ≠ ""
    ∧ strContains "nsight profile failed to run with the following error message:\n err"
        "err\n" = false := ⟨rfl, by decide, by decide⟩

/-- Claim C8: `delete_uri` measures the directory size before
delegating deletion and returns that size when the packaging
collaborator reports a deletion (no warning); calling it again on the
same URI finds nothing to delete, logs the warning and returns 0
without raising.  Packaging collaborators are modelled from the spec
interface (their code is not under src). -/
theorem delete_uri_size_then_zero (plugin : NsightPlugin) (fs : FileSystem)
    (uri : String) (sz : Nat)
    (h : lookupKey (get_local_dir_from_uri uri plugin.resources_dir) fs = some sz) :
    (delete_uri plugin fs uri).1 = sz
    ∧ (delete_uri plugin fs uri).2.1 = []
    ∧ (delete_uri plugin (delete_uri plugin fs uri).2.2 uri).1 = 0
    ∧ (delete_uri plugin (delete_uri plugin fs uri).2.2 uri).2.1
        = ["Tried to delete nonexistent URI: " ++ uri ++ "."] := by
  simp [delete_uri, delete_package, get_directory_size_bytes, h, lookupKey_removeKey]

/-- Concrete instance of `delete_uri_size_then_zero`: first call returns
the real size 42, second call returns 0. -/
theorem delete_uri_size_then_zero_witness :
    lookupKey (get_local_dir_from_uri "pkg" "/res/nsight") [("/res/nsight/pkg", 42)]
      = some 42
    ∧ (delete_uri (NsightPlugin.mk [] "/res/nsight" "/logs/nsight")
        [("/res/nsight/pkg", 42)] "pkg").1 = 42
    ∧ (delete_uri (NsightPlugin.mk [] "/res/nsight" "/logs/nsight")
        (delete_uri (NsightPlugin.mk [] "/res/nsight" "/logs/nsight")
          [("/res/nsight/pkg", 42)] "pkg").2.2 "pkg").1 = 0 := by
  have h : lookupKey (get_local_dir_from_uri "pkg" "/res/nsight")
      [("/res/nsight/pkg", 42)] = some 42 := by decide
  have := delete_uri_size_then_zero (NsightPlugin.mk [] "/res/nsight" "/logs/nsight")
    [("/res/nsight/pkg", 42)] "pkg" 42 h
  exact ⟨h, this.1, this.2.2.1⟩

/-- Claim C9 (as amended): with an absent or falsy nsight configuration,
`create` returns 0 and leaves the stored command empty; a subsequent
`modify_context` then sets the interpreter prefix to a single space
followed by the interpreter token, discarding the prior value rather
than leaving it unchanged. -/
theorem noop_create_then_modify_context (tool : Tool) (plugin : NsightPlugin)
    (c : RuntimeEnvContext) (nf : NsightField)
    (hfalsy : isFalsy nf = true) (hcmd : plugin.nsight_cmd = []) :
    create tool plugin nf = Except.ok (plugin, 0)
    ∧ (modify_context plugin c).py_executable = " python" := by
  constructor
  · simp [create, hfalsy]
  · simp [modify_context, hcmd]
    rfl

/-- Concrete instance of `noop_create_then_modify_context`. -/
theorem noop_create_then_modify_context_witness :
    isFalsy NsightField.absent = true
    ∧ create (fun _ => ToolOutcome.notFound) (NsightPlugin.mk [] "/r" "/l")
        NsightField.absent = Except.ok (NsightPlugin.mk [] "/r" "/l", 0)
    ∧ (modify_context (NsightPlugin.mk [] "/r" "/l")
        (RuntimeEnvContext.mk "python")).py_executable = " python" := by
  have := noop_create_then_modify_context (fun _ => ToolOutcome.notFound)
    (NsightPlugin.mk [] "/r" "/l") (RuntimeEnvContext.mk "python")
    NsightField.absent rfl rfl
  exact ⟨rfl, this.1, this.2⟩

/-- Claim C9 (counterexample): after a no-op `create`, `modify_context`
turns a prior prefix consisting of exactly the interpreter token
`python` into ` python` (a leading space, prior value discarded) — the
prefix does not stay unchanged aside from the interpreter token. -/
theorem noop_create_modify_context_cex :
    create (fun _ => ToolOutcome.notFound) (NsightPlugin.mk [] "/r" "/l")
        NsightField.absent = Except.ok (NsightPlugin.mk [] "/r" "/l", 0)
    ∧ (modify_context (NsightPlugin.mk [] "/r" "/l")
        (RuntimeEnvContext.mk "python")).py_executable = " python"
    ∧ (" python" : String) ≠ "python" := ⟨rfl, rfl, by decide⟩

/-- Claim C10: an entry whose non-empty key does not begin with a dash
contributes no tokens and raises no error — the rendered command with
such an entry anywhere in the configuration equals the rendered command
without it. -/
theorem renderer_omits_invalid_keys (d₁ d₂ : Dict) (k v : String)
    (hne : k ≠ "") (hd : strTake k 1 ≠ "-") :
    parse_nsight_config (d₁ ++ (k, v) :: d₂) = parse_nsight_config (d₁ ++ d₂) := by
  have h2 : strTake k 2 ≠ "--" := by
    intro hcon
    exact hd (strTake_one_iff.2 (take_one_of_take_two (strTake_two_iff.1 hcon)))
  rw [parse_nsight_config_eq, parse_nsight_config_eq, renderOptions_append,
    renderOptions_append]
  simp [renderOptions, renderOption, h2, hd]

/-- Concrete instance of `renderer_omits_invalid_keys`. -/
theorem renderer_omits_invalid_keys_witness :
    ("x" : String) ≠ "" ∧ strTake "x" 1 ≠ "-"
    ∧ parse_nsight_config [("-o", "a"), ("x", "1")] = parse_nsight_config [("-o", "a")] :=
  ⟨by decide, by decide,
    renderer_omits_invalid_keys [("-o", "a")] [] "x" "1" (by decide) (by decide)⟩

end Nsight
